import Mathlib

/-!
A shallow embedding of the eos-go `p2p` client.

The development follows `p2p/client.go` and `p2p/postprocess.go`.

* Go values of type `error` are `Option Error` (`none` is `nil`).
* A run-time panic is the `.error` side of `Except Panic`.
* The outside world (chain API, dialer, socket writes) is a set of oracles indexed by the
  number of earlier interactions, and every interaction is appended to a log in `World`,
  so that "no dial happened" or "exactly one envelope was written" are statements about logs.
* `fmt.Println` / `log.Println` output is not part of the state.
* `handlersLock` is not modelled: every operation here runs to completion on its own.
-/

namespace P2P

/-! ## Values of package `eos` used by the client -/

abbrev Error := String

abbrev SHA256Bytes := List Nat

/-- Run-time panics the client code can raise. -/
inductive Panic where
  | nilDereference
  | uncomparable
  deriving DecidableEq, Repr

/-- The embedded `time.Time` of `eos.Tstamp`; instants are integers. -/
structure Tstamp where
  Time : Int
  deriving DecidableEq, Repr

/-- The fields of `eos.InfoResp` read by `getHandshakeInfo`. -/
structure InfoResp where
  HeadBlockNum : Nat
  HeadBlockID : String
  HeadBlockTime : Tstamp
  LastIrreversibleBlockNum : Nat
  deriving DecidableEq, Repr

/-- The fields of `eos.BlockResp` read by `getHandshakeInfo`. -/
structure BlockResp where
  BlockNum : Nat
  ID : String
  deriving DecidableEq, Repr

/-- The chain API behind `c.API`: the answer to a query may depend on how many queries
were answered before it, so that the chain can advance between two queries. -/
structure API where
  GetInfo : Nat → Except Error InfoResp
  GetBlockByNum : Nat → Nat → Except Error BlockResp

structure HandshakeMessage where
  NetworkVersion : Int
  ChainID : SHA256Bytes
  NodeID : SHA256Bytes
  Key : List Nat
  Time : Tstamp
  Token : SHA256Bytes
  Signature : List Nat
  P2PAddress : String
  LastIrreversibleBlockNum : Nat
  LastIrreversibleBlockID : SHA256Bytes
  HeadNum : Nat
  HeadID : SHA256Bytes
  OS : String
  Agent : String
  Generation : Int
  deriving DecidableEq, Repr

structure SyncRequestMessage where
  StartBlock : Nat
  EndBlock : Nat
  deriving DecidableEq, Repr

inductive P2PMessageType where
  | HandshakeMessageType
  | SyncRequestMessageType
  | OtherMessageType (tag : Nat)
  deriving DecidableEq, Repr

/-- The dynamic value of the interface `eos.P2PMessage`. -/
inductive P2PMessage where
  | handshake (msg : HandshakeMessage)
  | syncRequest (msg : SyncRequestMessage)
  | other (tag : Nat) (payload : List Nat)
  deriving DecidableEq, Repr

def P2PMessage.GetType : P2PMessage → P2PMessageType
  | .handshake _ => .HandshakeMessageType
  | .syncRequest _ => .SyncRequestMessageType
  | .other tag _ => .OtherMessageType tag

/-- The envelope of package `eos`; its field `Type` is spelt `Typ`. -/
structure P2PMessageEnvelope where
  Typ : P2PMessageType
  P2PMessage : P2PMessage
  deriving DecidableEq, Repr

/-! ## Package `p2p` -/

structure Route where
  From : String
  deriving DecidableEq, Repr

structure PostProcessable where
  Route : Route
  P2PMessageEnvelope : P2PMessageEnvelope
  deriving DecidableEq, Repr

/-- The function values of type `HandlerFunc` that can occur: the closure built by
`setupFlow` (with the index of its captured `hInfo` variable), the two package-level
loggers, and any other function. -/
inductive HandlerFunc where
  | initHandler (cell : Nat)
  | LoggerHandler
  | StringLoggerHandler
  | userFunc (n : Nat)
  deriving DecidableEq, Repr

/-- A value of the interface type `Handler`: the nil interface, a `HandlerFunc` (a
function type, hence not comparable), or a pointer of some other type (comparable by
address). -/
inductive Handler where
  | nil
  | func (f : HandlerFunc)
  | ptr (typ : Nat) (addr : Nat)
  deriving DecidableEq, Repr

/-- Go's `==` on two interface values: different dynamic types are unequal, identical
comparable types compare their values, identical non-comparable types panic. -/
def Handler.goEq : Handler → Handler → Except Panic Bool
  | .nil, .nil => .ok true
  | .nil, .func _ => .ok false
  | .nil, .ptr _ _ => .ok false
  | .func _, .nil => .ok false
  | .ptr _ _, .nil => .ok false
  | .func _, .func _ => .error .uncomparable
  | .func _, .ptr _ _ => .ok false
  | .ptr _ _, .func _ => .ok false
  | .ptr t a, .ptr u b => .ok (decide (t = u ∧ a = b))

structure handshakeInfo where
  HeadBlockNum : Nat
  HeadBlockID : SHA256Bytes
  HeadBlockTime : Int
  LastIrreversibleBlockNum : Nat
  LastIrreversibleBlockID : SHA256Bytes
  deriving DecidableEq, Repr, Inhabited

/-- An open `net.Conn`: the peer it leads to and, for the k-th envelope handed to the
encoder, whether encoding and writing it fails. -/
structure NetConn where
  remote : String
  writeErr : Nat → Option Error

structure Client where
  handlers : List Handler
  p2pAddress : String
  API : API
  ChainID : SHA256Bytes
  NetworkVersion : Int
  Conn : Option NetConn
  NodeID : SHA256Bytes

/-- What the package reaches outside the client: `net.Dial` and the two constructors of
package `ecc`. -/
structure Env where
  Dial : Nat → String → Except Error NetConn
  NewPublicKey : String → Except Error (List Nat)
  NewSignature : String → Except Error (List Nat)

inductive Query where
  | getInfo
  | getBlockByNum (num : Nat)
  deriving DecidableEq, Repr

/-- One envelope handed to the encoder of a connection, with the outcome. -/
structure WriteRecord where
  remote : String
  envelope : P2PMessageEnvelope
  err : Option Error
  deriving DecidableEq, Repr

/-- The client together with the logs of its interactions: chain queries, dial attempts,
envelopes handed to the encoder, the `hInfo` variables captured by `setupFlow` closures,
read loops started, and handler invocations. -/
structure World where
  client : Client
  queries : List Query
  dials : List String
  wire : List WriteRecord
  cells : List handshakeInfo
  readLoops : List Route
  invoked : List (Handler × PostProcessable)

/-- The conversion `uint32(x)`. -/
def uint32 (x : Nat) : Nat := x % 2 ^ 32

/-- The conversion `uint64(x)`. -/
def uint64 (x : Nat) : Nat := x % 2 ^ 64

def hexDigit (c : Char) : Option Nat :=
  let n := c.toNat
  if 48 ≤ n ∧ n ≤ 57 then some (n - 48)
  else if 97 ≤ n ∧ n ≤ 102 then some (n - 87)
  else if 65 ≤ n ∧ n ≤ 70 then some (n - 55)
  else none

def decodePairs : List Char → List Nat
  | a :: b :: rest =>
    match hexDigit a, hexDigit b with
    | some x, some y => (16 * x + y) :: decodePairs rest
    | _, _ => []
  | _ => []

/-- Modelled from the spec: `DecodeHex` is defined in package `p2p` outside the files at
hand. It turns the hexadecimal text of a hash into its bytes (the token literal of 64
zero digits is the "zero-filled token field"); decoding stops at the first pair that is
not hexadecimal. -/
def DecodeHex (s : String) : SHA256Bytes :=
  decodePairs s.toList

def nullPublicKey : String := "EOS1111111111111111111111111111111114T1Anm"

def nullSignature : String :=
  "EOS111111111111111111111111111111111111111111111111111111111111111111LHpNx"

def zeroToken : String :=
  "0000000000000000000000000000000000000000000000000000000000000000"

def NewClient (p2pAddr : String) (eosAPI : API) (chainID : SHA256Bytes)
    (networkVersion : Int) (_p2pAddress : String) : Client :=
  let c : Client :=
    { handlers := []
      p2pAddress := p2pAddr
      API := eosAPI
      ChainID := chainID
      NetworkVersion := networkVersion
      Conn := none
      NodeID := [] }
  { c with NodeID := chainID }

def RegisterHandler (w : World) (h : Handler) : World :=
  { w with client := { w.client with handlers := w.client.handlers ++ [h] } }

/-- The loop of `UnregisterHandler`: `newHandlers` grows by every handler that compares
unequal to `h`. -/
def unregisterLoop (h : Handler) : List Handler → List Handler → Except Panic (List Handler)
  | [], newHandlers => .ok newHandlers
  | handler :: rest, newHandlers =>
    match handler.goEq h with
    | .error p => .error p
    | .ok true => unregisterLoop h rest newHandlers
    | .ok false => unregisterLoop h rest (newHandlers ++ [handler])

def UnregisterHandler (w : World) (h : Handler) : Except Panic World :=
  match unregisterLoop h w.client.handlers [] with
  | .error p => .error p
  | .ok newHandlers => .ok { w with client := { w.client with handlers := newHandlers } }

def apiGetInfo (w : World) : World × Except Error InfoResp :=
  ({ w with queries := w.queries ++ [Query.getInfo] }, w.client.API.GetInfo w.queries.length)

def apiGetBlockByNum (w : World) (num : Nat) : World × Except Error BlockResp :=
  ({ w with queries := w.queries ++ [Query.getBlockByNum num] },
    w.client.API.GetBlockByNum w.queries.length num)

def getHandshakeInfo (w : World) : World × handshakeInfo × Option Error :=
  match apiGetInfo w with
  | (w1, .error err) => (w1, default, some err)
  | (w1, .ok peerInfo) =>
    match apiGetBlockByNum w1 (uint64 peerInfo.LastIrreversibleBlockNum) with
    | (w2, .error err) => (w2, default, some err)
    | (w2, .ok blockInfo) =>
      (w2,
        { HeadBlockNum := peerInfo.HeadBlockNum
          HeadBlockID := DecodeHex peerInfo.HeadBlockID
          HeadBlockTime := peerInfo.HeadBlockTime.Time
          LastIrreversibleBlockNum := uint32 blockInfo.BlockNum
          LastIrreversibleBlockID := DecodeHex blockInfo.ID },
        none)

def sendMessage (w : World) (message : P2PMessage) : Except Panic (World × Option Error) :=
  let envelope : P2PMessageEnvelope := { Typ := message.GetType, P2PMessage := message }
  match w.client.Conn with
  | none => .error .nilDereference
  | some conn =>
    let err := conn.writeErr w.wire.length
    .ok ({ w with wire := w.wire ++ [{ remote := conn.remote, envelope := envelope, err := err }] },
      err)

def SendHandshake (env : Env) (w : World) (info : handshakeInfo) :
    Except Panic (World × Option Error) :=
  match env.NewPublicKey nullPublicKey with
  | .error err => .ok (w, some err)
  | .ok pulbicKey =>
    match env.NewSignature nullSignature with
    | .error err => .ok (w, some err)
    | .ok signature =>
      let tstamp : Tstamp := { Time := info.HeadBlockTime }
      let handshake : HandshakeMessage :=
        { NetworkVersion := w.client.NetworkVersion
          ChainID := w.client.ChainID
          NodeID := w.client.NodeID
          Key := pulbicKey
          Time := tstamp
          Token := DecodeHex zeroToken
          Signature := signature
          P2PAddress := w.client.p2pAddress
          LastIrreversibleBlockNum := info.LastIrreversibleBlockNum
          LastIrreversibleBlockID := info.LastIrreversibleBlockID
          HeadNum := info.HeadBlockNum
          HeadID := info.HeadBlockID
          OS := "linux"
          Agent := "Charles Billette Agent"
          Generation := 1 }
      sendMessage w (.handshake handshake)

/-- The result of `c.sendMessage` is dropped and the named result `err` is returned as
it was declared. -/
def SendSyncRequest (w : World) (startBlockNum endBlockNumber : Nat) :
    Except Panic (World × Option Error) :=
  let syncRequest : SyncRequestMessage :=
    { StartBlock := startBlockNum, EndBlock := endBlockNumber }
  match sendMessage w (.syncRequest syncRequest) with
  | .error p => .error p
  | .ok (w1, _) => .ok (w1, none)

/-- The closure `initHandler` of `setupFlow`; `cell` is its captured variable `hInfo`.
A send error is logged and dropped. -/
def initHandler (env : Env) (cell : Nat) (processable : PostProcessable) (w : World) :
    Except Panic World :=
  match processable.P2PMessageEnvelope.P2PMessage with
  | .handshake msg =>
    let hInfo : handshakeInfo :=
      { HeadBlockNum := msg.HeadNum
        HeadBlockID := msg.HeadID
        HeadBlockTime := msg.Time.Time
        LastIrreversibleBlockNum := msg.LastIrreversibleBlockNum
        LastIrreversibleBlockID := msg.LastIrreversibleBlockID }
    let w1 : World := { w with cells := w.cells.set cell hInfo }
    match SendHandshake env w1 hInfo with
    | .error p => .error p
    | .ok (w2, _) => .ok w2
  | _ => .ok w

def setupFlow (w : World) : World × Option Error :=
  match getHandshakeInfo w with
  | (w1, _, some err) => (w1, some err)
  | (w1, hInfo, none) =>
    let cell := w1.cells.length
    let w2 : World := { w1 with cells := w1.cells ++ [hInfo] }
    (RegisterHandler w2 (.func (.initHandler cell)), none)

/-- The method `Handle` of a handler value. The loggers only print; the body of a
handler from outside the package is not known here and leaves the state alone. -/
def Handle (env : Env) : Handler → PostProcessable → World → Except Panic World
  | .nil, _, _ => .error .nilDereference
  | .func (.initHandler cell), msg, w => initHandler env cell msg w
  | .func .LoggerHandler, _, w => .ok w
  | .func .StringLoggerHandler, _, w => .ok w
  | .func (.userFunc _), _, w => .ok w
  | .ptr _ _, _, w => .ok w

/-- The loop `for _, handle := range c.handlers` of `handleConnection`. -/
def dispatchLoop (env : Env) (pp : PostProcessable) : List Handler → World → Except Panic World
  | [], w => .ok w
  | handle :: rest, w =>
    match Handle env handle pp { w with invoked := w.invoked ++ [(handle, pp)] } with
    | .error p => .error p
    | .ok w1 => dispatchLoop env pp rest w1

/-- One round of the loop of `handleConnection`, after an envelope was decoded. -/
def handleEnvelope (env : Env) (route : Route) (envelope : P2PMessageEnvelope) (w : World) :
    Except Panic World :=
  let pp : PostProcessable := { Route := route, P2PMessageEnvelope := envelope }
  dispatchLoop env pp w.client.handlers w

/-- The method `Connect`, with the read loop started and not yet delivering anything. -/
def Connect (env : Env) (w : World) : Except Panic (World × Option Error) :=
  match getHandshakeInfo w with
  | (w1, _, some err) => .ok (w1, some err)
  | (w1, handshakeInfo, none) =>
    let w2 : World := { w1 with dials := w1.dials ++ [w1.client.p2pAddress] }
    match env.Dial w1.dials.length w1.client.p2pAddress with
    | .error err => .ok (w2, some err)
    | .ok conn =>
      let w3 : World := { w2 with client := { w2.client with Conn := some conn } }
      match setupFlow w3 with
      | (w4, some err) => .ok (w4, some err)
      | (w4, none) =>
        let w5 : World := { w4 with readLoops := w4.readLoops ++ [{ From := w4.client.p2pAddress }] }
        SendHandshake env w5 handshakeInfo

/-- A client in a world where nothing has happened yet. -/
def World.fresh (c : Client) : World :=
  { client := c, queries := [], dials := [], wire := [], cells := [], readLoops := [],
    invoked := [] }

/-! ## Definitions used to state the properties -/

/-- The handshake literal of `SendHandshake`, for stating what was written. -/
def builtHandshake (c : Client) (key sig : List Nat) (info : handshakeInfo) : HandshakeMessage :=
  { NetworkVersion := c.NetworkVersion
    ChainID := c.ChainID
    NodeID := c.NodeID
    Key := key
    Time := { Time := info.HeadBlockTime }
    Token := DecodeHex zeroToken
    Signature := sig
    P2PAddress := c.p2pAddress
    LastIrreversibleBlockNum := info.LastIrreversibleBlockNum
    LastIrreversibleBlockID := info.LastIrreversibleBlockID
    HeadNum := info.HeadBlockNum
    HeadID := info.HeadBlockID
    OS := "linux"
    Agent := "Charles Billette Agent"
    Generation := 1 }

/-- The log entry of one handshake handed to the encoder of `conn` as the next envelope
of `w`. -/
def handshakeRecord (w : World) (conn : NetConn) (hs : HandshakeMessage) : WriteRecord :=
  { remote := conn.remote
    envelope := { Typ := .HandshakeMessageType, P2PMessage := .handshake hs }
    err := conn.writeErr w.wire.length }

/-- The value `getHandshakeInfo` assembles from the answers to its two queries. -/
def observed (peerInfo : InfoResp) (blockInfo : BlockResp) : handshakeInfo :=
  { HeadBlockNum := peerInfo.HeadBlockNum
    HeadBlockID := DecodeHex peerInfo.HeadBlockID
    HeadBlockTime := peerInfo.HeadBlockTime.Time
    LastIrreversibleBlockNum := uint32 blockInfo.BlockNum
    LastIrreversibleBlockID := DecodeHex blockInfo.ID }

/-- The chain position a handshake message announces. -/
def HandshakeMessage.position (hs : HandshakeMessage) : handshakeInfo :=
  { HeadBlockNum := hs.HeadNum
    HeadBlockID := hs.HeadID
    HeadBlockTime := hs.Time.Time
    LastIrreversibleBlockNum := hs.LastIrreversibleBlockNum
    LastIrreversibleBlockID := hs.LastIrreversibleBlockID }

/-- The four chain queries one call of `Connect` can make: the head and block query of
its own `getHandshakeInfo`, then the head and block query of `setupFlow`. -/
inductive QueryPoint where
  | connectHead
  | connectBlock
  | setupHead
  | setupBlock
  deriving DecidableEq, Repr

def failsWith {α : Type} (r : Except Error α) (e : Error) : Bool :=
  match r with
  | .error x => x == e
  | .ok _ => false

/-- In a `Connect` started in `w`, the query at the given point is reached and fails
with `e`. The queries of `setupFlow` are reached when the two earlier ones and the dial
succeeded. -/
def failsAt (env : Env) (w : World) (e : Error) : QueryPoint → Bool
  | .connectHead => failsWith (w.client.API.GetInfo w.queries.length) e
  | .connectBlock =>
    match w.client.API.GetInfo w.queries.length with
    | .error _ => false
    | .ok peerInfo =>
      failsWith (w.client.API.GetBlockByNum (w.queries.length + 1)
        (uint64 peerInfo.LastIrreversibleBlockNum)) e
  | .setupHead =>
    match w.client.API.GetInfo w.queries.length with
    | .error _ => false
    | .ok peerInfo =>
      match w.client.API.GetBlockByNum (w.queries.length + 1)
          (uint64 peerInfo.LastIrreversibleBlockNum),
        env.Dial w.dials.length w.client.p2pAddress with
      | .ok _, .ok _ => failsWith (w.client.API.GetInfo (w.queries.length + 2)) e
      | _, _ => false
  | .setupBlock =>
    match w.client.API.GetInfo w.queries.length with
    | .error _ => false
    | .ok peerInfo =>
      match w.client.API.GetBlockByNum (w.queries.length + 1)
          (uint64 peerInfo.LastIrreversibleBlockNum),
        env.Dial w.dials.length w.client.p2pAddress,
        w.client.API.GetInfo (w.queries.length + 2) with
      | .ok _, .ok _, .ok peerInfo2 =>
        failsWith (w.client.API.GetBlockByNum (w.queries.length + 3)
          (uint64 peerInfo2.LastIrreversibleBlockNum)) e
      | _, _, _ => false

/-- A call on the handler registry. -/
inductive RegistryCall where
  | register (h : Handler)
  | unregister (h : Handler)
  deriving DecidableEq, Repr

def applyCall (w : World) : RegistryCall → Except Panic World
  | .register h => .ok (RegisterHandler w h)
  | .unregister h => UnregisterHandler w h

def applyCalls : List RegistryCall → World → Except Panic World
  | [], w => .ok w
  | call :: rest, w =>
    match applyCall w call with
    | .error p => .error p
    | .ok w1 => applyCalls rest w1

/-- The registrations of a call sequence that no later call unregisters, in registration
order. -/
def survivors : List RegistryCall → List Handler
  | [] => []
  | .register h :: rest =>
    if rest.contains (.unregister h) then survivors rest else h :: survivors rest
  | .unregister _ :: rest => survivors rest

/-! ## Sample providers, transports and clients -/

/-- A chain whose head advances by one block with every query answered. -/
def advancingAPI : API :=
  { GetInfo := fun k =>
      .ok { HeadBlockNum := 100 + k, HeadBlockID := "0a0b", HeadBlockTime := { Time := 5000 + k },
            LastIrreversibleBlockNum := 90 }
    GetBlockByNum := fun _ num => .ok { BlockNum := num, ID := "0c0d" } }

/-- A chain standing at head 100 with last irreversible block 90. -/
def steadyAPI : API :=
  { GetInfo := fun _ =>
      .ok { HeadBlockNum := 100, HeadBlockID := "0a0b", HeadBlockTime := { Time := 5000 },
            LastIrreversibleBlockNum := 90 }
    GetBlockByNum := fun _ num => .ok { BlockNum := num, ID := "0c0d" } }

/-- A provider that answers two queries and fails the head query after them. -/
def flakyAPI : API :=
  { GetInfo := fun k =>
      if k < 2 then
        .ok { HeadBlockNum := 100, HeadBlockID := "0a0b", HeadBlockTime := { Time := 5000 },
              LastIrreversibleBlockNum := 90 }
      else .error "head query failed"
    GetBlockByNum := fun _ num => .ok { BlockNum := num, ID := "0c0d" } }

def goodConn (addr : String) : NetConn :=
  { remote := addr, writeErr := fun _ => none }

def brokenConn (addr : String) : NetConn :=
  { remote := addr, writeErr := fun _ => some "broken pipe" }

def sampleEnv : Env :=
  { Dial := fun _ addr => .ok (goodConn addr)
    NewPublicKey := fun _ => .ok [0]
    NewSignature := fun _ => .ok [1] }

def sampleChainID : SHA256Bytes := [202, 254]

def steadyWorld : World :=
  World.fresh (NewClient "peer.example:9876" steadyAPI sampleChainID 1 "me.example:5555")

def advancingWorld : World :=
  World.fresh (NewClient "peer.example:9876" advancingAPI sampleChainID 1 "me.example:5555")

def flakyWorld : World :=
  World.fresh (NewClient "peer.example:9876" flakyAPI sampleChainID 1 "me.example:5555")

/-- A client whose connection is open. -/
def connectedWorld (conn : NetConn) : World :=
  { steadyWorld with client := { steadyWorld.client with Conn := some conn } }

def peerHandshake : HandshakeMessage :=
  { NetworkVersion := 1
    ChainID := sampleChainID
    NodeID := [7]
    Key := [0]
    Time := { Time := 7777 }
    Token := []
    Signature := [1]
    P2PAddress := "peer.example:9876"
    LastIrreversibleBlockNum := 480
    LastIrreversibleBlockID := [4, 8]
    HeadNum := 500
    HeadID := [5, 0]
    OS := "linux"
    Agent := "nodeos"
    Generation := 1 }

def sampleInfo : handshakeInfo :=
  { HeadBlockNum := 100
    HeadBlockID := [10, 11]
    HeadBlockTime := 5000
    LastIrreversibleBlockNum := 90
    LastIrreversibleBlockID := [12, 13] }

def sampleRoute : Route := { From := "peer.example:9876" }

def handshakeEnvelope : P2PMessageEnvelope :=
  { Typ := .HandshakeMessageType, P2PMessage := .handshake peerHandshake }

def syncEnvelope : P2PMessageEnvelope :=
  { Typ := .SyncRequestMessageType, P2PMessage := .syncRequest { StartBlock := 1, EndBlock := 9 } }

/-! ## Lemmas on the send path and the chain queries -/

theorem sendMessage_connected (w : World) (m : P2PMessage) (conn : NetConn)
    (hconn : w.client.Conn = some conn) :
    sendMessage w m =
      .ok ({ w with wire := w.wire ++
              [{ remote := conn.remote, envelope := { Typ := m.GetType, P2PMessage := m },
                 err := conn.writeErr w.wire.length }] },
        conn.writeErr w.wire.length) := by
  simp only [sendMessage, hconn]

theorem SendHandshake_connected (env : Env) (w : World) (info : handshakeInfo)
    (conn : NetConn) (key sig : List Nat)
    (hconn : w.client.Conn = some conn)
    (hkey : env.NewPublicKey nullPublicKey = .ok key)
    (hsig : env.NewSignature nullSignature = .ok sig) :
    SendHandshake env w info =
      .ok ({ w with wire := w.wire ++
              [handshakeRecord w conn (builtHandshake w.client key sig info)] },
        conn.writeErr w.wire.length) := by
  simp only [SendHandshake, hkey, hsig, sendMessage_connected w _ conn hconn]
  rfl

theorem DecodeHex_zeroToken : DecodeHex zeroToken = List.replicate 32 0 := by decide

theorem getHandshakeInfo_head_error (w : World) (e : Error)
    (h1 : w.client.API.GetInfo w.queries.length = .error e) :
    getHandshakeInfo w = ({ w with queries := w.queries ++ [Query.getInfo] }, default, some e) := by
  simp only [getHandshakeInfo, apiGetInfo, h1]

theorem getHandshakeInfo_block_error (w : World) (peerInfo : InfoResp) (e : Error)
    (h1 : w.client.API.GetInfo w.queries.length = .ok peerInfo)
    (h2 : w.client.API.GetBlockByNum (w.queries.length + 1)
      (uint64 peerInfo.LastIrreversibleBlockNum) = .error e) :
    getHandshakeInfo w =
      ({ w with queries := w.queries ++ [Query.getInfo] ++
          [Query.getBlockByNum (uint64 peerInfo.LastIrreversibleBlockNum)] },
        default, some e) := by
  simp only [getHandshakeInfo, apiGetInfo, apiGetBlockByNum, h1, List.length_append,
    List.length_singleton, h2]

theorem getHandshakeInfo_ok (w : World) (peerInfo : InfoResp) (blockInfo : BlockResp)
    (h1 : w.client.API.GetInfo w.queries.length = .ok peerInfo)
    (h2 : w.client.API.GetBlockByNum (w.queries.length + 1)
      (uint64 peerInfo.LastIrreversibleBlockNum) = .ok blockInfo) :
    getHandshakeInfo w =
      ({ w with queries := w.queries ++ [Query.getInfo] ++
          [Query.getBlockByNum (uint64 peerInfo.LastIrreversibleBlockNum)] },
        observed peerInfo blockInfo, none) := by
  simp only [getHandshakeInfo, apiGetInfo, apiGetBlockByNum, h1, List.length_append,
    List.length_singleton, h2, observed]

theorem initHandler_on_handshake (env : Env) (w : World) (cell : Nat)
    (pp : PostProcessable) (msg : HandshakeMessage) (conn : NetConn) (key sig : List Nat)
    (hmsg : pp.P2PMessageEnvelope.P2PMessage = .handshake msg)
    (hconn : w.client.Conn = some conn)
    (hkey : env.NewPublicKey nullPublicKey = .ok key)
    (hsig : env.NewSignature nullSignature = .ok sig) :
    Handle env (.func (.initHandler cell)) pp w =
      .ok { w with
        cells := w.cells.set cell msg.position
        wire := w.wire ++
          [handshakeRecord w conn (builtHandshake w.client key sig msg.position)] } := by
  have hsend := SendHandshake_connected env
    ({ w with cells := w.cells.set cell msg.position } : World) msg.position conn key sig
    hconn hkey hsig
  simp only [HandshakeMessage.position] at hsend
  simp only [Handle, initHandler, hmsg, hsend]
  rfl

theorem Connect_all_succeed (env : Env) (w : World) (peerInfo peerInfo2 : InfoResp)
    (blockInfo blockInfo2 : BlockResp) (conn : NetConn) (key sig : List Nat)
    (h1 : w.client.API.GetInfo w.queries.length = .ok peerInfo)
    (h2 : w.client.API.GetBlockByNum (w.queries.length + 1)
      (uint64 peerInfo.LastIrreversibleBlockNum) = .ok blockInfo)
    (hdial : env.Dial w.dials.length w.client.p2pAddress = .ok conn)
    (h3 : w.client.API.GetInfo (w.queries.length + 2) = .ok peerInfo2)
    (h4 : w.client.API.GetBlockByNum (w.queries.length + 3)
      (uint64 peerInfo2.LastIrreversibleBlockNum) = .ok blockInfo2)
    (hkey : env.NewPublicKey nullPublicKey = .ok key)
    (hsig : env.NewSignature nullSignature = .ok sig) :
    Connect env w =
      .ok ({ client := { w.client with
                Conn := some conn
                handlers := w.client.handlers ++ [.func (.initHandler w.cells.length)] }
             queries := w.queries ++ [Query.getInfo] ++
               [Query.getBlockByNum (uint64 peerInfo.LastIrreversibleBlockNum)] ++
               [Query.getInfo] ++
               [Query.getBlockByNum (uint64 peerInfo2.LastIrreversibleBlockNum)]
             dials := w.dials ++ [w.client.p2pAddress]
             wire := w.wire ++ [handshakeRecord w conn
               (builtHandshake w.client key sig (observed peerInfo blockInfo))]
             cells := w.cells ++ [observed peerInfo2 blockInfo2]
             readLoops := w.readLoops ++ [{ From := w.client.p2pAddress }]
             invoked := w.invoked },
        conn.writeErr w.wire.length) := by
  have hq := getHandshakeInfo_ok w peerInfo blockInfo h1 h2
  simp only [Connect, hq, hdial, setupFlow]
  rw [getHandshakeInfo_ok _ peerInfo2 blockInfo2
    (by simpa [List.length_append] using h3)
    (by simpa [List.length_append] using h4)]
  simp only [RegisterHandler]
  rw [SendHandshake_connected env _ _ conn key sig rfl hkey hsig]
  rfl

/-! ## The reactive handshake handler -/

/-- C1: when the handler registered by `setupFlow` receives an envelope whose payload is
a handshake message (on an open connection, the null key and signature being
constructible), it hands exactly one envelope to the encoder, a handshake whose
last-irreversible number and id, head number and id and time are those of the peer's
message, whatever the captured `hInfo` variables held. -/
theorem initHandler_answers_peer_handshake (env : Env) (w : World) (cell : Nat)
    (pp : PostProcessable) (msg : HandshakeMessage) (conn : NetConn) (key sig : List Nat)
    (hmsg : pp.P2PMessageEnvelope.P2PMessage = .handshake msg)
    (hconn : w.client.Conn = some conn)
    (hkey : env.NewPublicKey nullPublicKey = .ok key)
    (hsig : env.NewSignature nullSignature = .ok sig) :
    ∃ w1 hs, Handle env (.func (.initHandler cell)) pp w = .ok w1 ∧
      w1.wire = w.wire ++
        [{ remote := conn.remote
           envelope := { Typ := .HandshakeMessageType, P2PMessage := .handshake hs }
           err := conn.writeErr w.wire.length }] ∧
      hs.LastIrreversibleBlockNum = msg.LastIrreversibleBlockNum ∧
      hs.LastIrreversibleBlockID = msg.LastIrreversibleBlockID ∧
      hs.HeadNum = msg.HeadNum ∧ hs.HeadID = msg.HeadID ∧ hs.Time = msg.Time :=
  ⟨_, _, initHandler_on_handshake env w cell pp msg conn key sig hmsg hconn hkey hsig,
    rfl, rfl, rfl, rfl, rfl, rfl⟩

theorem initHandler_answers_peer_handshake_witness :
    ∃ w1 hs, Handle sampleEnv (.func (.initHandler 0)) ⟨sampleRoute, handshakeEnvelope⟩
        (connectedWorld (goodConn "peer.example:9876")) = .ok w1 ∧
      w1.wire = (connectedWorld (goodConn "peer.example:9876")).wire ++
        [{ remote := (goodConn "peer.example:9876").remote
           envelope := { Typ := .HandshakeMessageType, P2PMessage := .handshake hs }
           err := (goodConn "peer.example:9876").writeErr
             (connectedWorld (goodConn "peer.example:9876")).wire.length }] ∧
      hs.LastIrreversibleBlockNum = peerHandshake.LastIrreversibleBlockNum ∧
      hs.LastIrreversibleBlockID = peerHandshake.LastIrreversibleBlockID ∧
      hs.HeadNum = peerHandshake.HeadNum ∧ hs.HeadID = peerHandshake.HeadID ∧
      hs.Time = peerHandshake.Time :=
  initHandler_answers_peer_handshake sampleEnv (connectedWorld (goodConn "peer.example:9876")) 0
    ⟨sampleRoute, handshakeEnvelope⟩ peerHandshake (goodConn "peer.example:9876") [0] [1]
    rfl rfl rfl rfl

/-- C6: when the handler registered by `setupFlow` receives an envelope whose payload is
not a handshake message, it returns with the whole state as it was: nothing is handed
to the encoder and neither the client nor a captured variable changes. -/
theorem initHandler_ignores_other_payloads (env : Env) (w : World) (cell : Nat)
    (pp : PostProcessable)
    (hmsg : ∀ msg, pp.P2PMessageEnvelope.P2PMessage ≠ .handshake msg) :
    Handle env (.func (.initHandler cell)) pp w = .ok w := by
  cases h : pp.P2PMessageEnvelope.P2PMessage with
  | handshake msg => exact absurd h (hmsg msg)
  | syncRequest m => simp only [Handle, initHandler, h]
  | other t p => simp only [Handle, initHandler, h]

theorem initHandler_ignores_other_payloads_witness :
    Handle sampleEnv (.func (.initHandler 0)) ⟨sampleRoute, syncEnvelope⟩
        (connectedWorld (goodConn "peer.example:9876")) =
      .ok (connectedWorld (goodConn "peer.example:9876")) :=
  initHandler_ignores_other_payloads sampleEnv (connectedWorld (goodConn "peer.example:9876")) 0
    ⟨sampleRoute, syncEnvelope⟩ (fun msg h => by cases h)

/-! ## `Connect` -/

/-- C2: when the four chain queries of `Connect` succeed (the head query reporting head
number `n`, the block query reporting last-irreversible number `m`), the dial succeeds,
every write on the connection succeeds and the null key and signature are
constructible, then `Connect` (no message arriving meanwhile) returns nil after handing
exactly one envelope to the encoder, a handshake with `HeadNum = n` and
`LastIrreversibleBlockNum = m`. -/
theorem Connect_writes_one_handshake (env : Env) (w : World) (peerInfo peerInfo2 : InfoResp)
    (blockInfo blockInfo2 : BlockResp) (conn : NetConn) (key sig : List Nat) (n m : Nat)
    (h1 : w.client.API.GetInfo w.queries.length = .ok peerInfo)
    (h2 : w.client.API.GetBlockByNum (w.queries.length + 1)
      (uint64 peerInfo.LastIrreversibleBlockNum) = .ok blockInfo)
    (hdial : env.Dial w.dials.length w.client.p2pAddress = .ok conn)
    (h3 : w.client.API.GetInfo (w.queries.length + 2) = .ok peerInfo2)
    (h4 : w.client.API.GetBlockByNum (w.queries.length + 3)
      (uint64 peerInfo2.LastIrreversibleBlockNum) = .ok blockInfo2)
    (hwrite : ∀ k, conn.writeErr k = none)
    (hkey : env.NewPublicKey nullPublicKey = .ok key)
    (hsig : env.NewSignature nullSignature = .ok sig)
    (hn : peerInfo.HeadBlockNum = n) (hm : blockInfo.BlockNum = m) (hm32 : m < 2 ^ 32) :
    ∃ w1 hs, Connect env w = .ok (w1, none) ∧
      w1.wire = w.wire ++
        [{ remote := conn.remote
           envelope := { Typ := .HandshakeMessageType, P2PMessage := .handshake hs }
           err := none }] ∧
      hs.HeadNum = n ∧ hs.LastIrreversibleBlockNum = m := by
  have hc := Connect_all_succeed env w peerInfo peerInfo2 blockInfo blockInfo2 conn key sig
    h1 h2 hdial h3 h4 hkey hsig
  rw [hwrite] at hc
  refine ⟨_, builtHandshake w.client key sig (observed peerInfo blockInfo), hc, ?_, hn, ?_⟩
  · simp only [handshakeRecord, hwrite]
  · simp only [builtHandshake, observed, hm, uint32]
    exact Nat.mod_eq_of_lt hm32

theorem Connect_writes_one_handshake_witness :
    ∃ w1 hs, Connect sampleEnv steadyWorld = .ok (w1, none) ∧
      w1.wire = steadyWorld.wire ++
        [{ remote := (goodConn "peer.example:9876").remote
           envelope := { Typ := .HandshakeMessageType, P2PMessage := .handshake hs }
           err := none }] ∧
      hs.HeadNum = 100 ∧ hs.LastIrreversibleBlockNum = 90 :=
  Connect_writes_one_handshake sampleEnv steadyWorld
    { HeadBlockNum := 100, HeadBlockID := "0a0b", HeadBlockTime := { Time := 5000 },
      LastIrreversibleBlockNum := 90 }
    { HeadBlockNum := 100, HeadBlockID := "0a0b", HeadBlockTime := { Time := 5000 },
      LastIrreversibleBlockNum := 90 }
    { BlockNum := 90, ID := "0c0d" } { BlockNum := 90, ID := "0c0d" }
    (goodConn "peer.example:9876") [0] [1] 100 90
    rfl rfl rfl rfl rfl (fun _ => rfl) rfl rfl rfl rfl (by decide)

/-! ## The handshake message -/

/-- C7: the handshake `SendHandshake` hands to the encoder depends on the client
identity and the `handshakeInfo` only. For two clients with the same network version,
chain id, node id and address, in any two states with an open connection, the same
message is written; its `NetworkVersion`, `ChainID` and `NodeID` are the client's, `Key`
and `Signature` are what `ecc` makes of the null literals, `Token` is 32 zero bytes, `OS`
is "linux", `Agent` is the fixed agent text, `Generation` is 1, and the chain position
fields are those of the `handshakeInfo`. A client made by `NewClient` has
`NodeID = ChainID`. -/
theorem SendHandshake_message_is_determined (env : Env) (w₁ w₂ : World) (info : handshakeInfo)
    (c₁ c₂ : NetConn) (key sig : List Nat)
    (hc₁ : w₁.client.Conn = some c₁) (hc₂ : w₂.client.Conn = some c₂)
    (hkey : env.NewPublicKey nullPublicKey = .ok key)
    (hsig : env.NewSignature nullSignature = .ok sig)
    (hversion : w₁.client.NetworkVersion = w₂.client.NetworkVersion)
    (hchain : w₁.client.ChainID = w₂.client.ChainID)
    (hnode : w₁.client.NodeID = w₂.client.NodeID)
    (haddr : w₁.client.p2pAddress = w₂.client.p2pAddress) :
    ∃ hs,
      SendHandshake env w₁ info =
        .ok ({ w₁ with wire := w₁.wire ++
                [{ remote := c₁.remote
                   envelope := { Typ := .HandshakeMessageType, P2PMessage := .handshake hs }
                   err := c₁.writeErr w₁.wire.length }] },
          c₁.writeErr w₁.wire.length) ∧
      SendHandshake env w₂ info =
        .ok ({ w₂ with wire := w₂.wire ++
                [{ remote := c₂.remote
                   envelope := { Typ := .HandshakeMessageType, P2PMessage := .handshake hs }
                   err := c₂.writeErr w₂.wire.length }] },
          c₂.writeErr w₂.wire.length) ∧
      hs.NetworkVersion = w₁.client.NetworkVersion ∧
      hs.ChainID = w₁.client.ChainID ∧
      hs.NodeID = w₁.client.NodeID ∧
      hs.Key = key ∧ hs.Signature = sig ∧
      hs.Token = List.replicate 32 0 ∧
      hs.OS = "linux" ∧ hs.Agent = "Charles Billette Agent" ∧ hs.Generation = 1 ∧
      hs.LastIrreversibleBlockNum = info.LastIrreversibleBlockNum ∧
      hs.LastIrreversibleBlockID = info.LastIrreversibleBlockID ∧
      hs.HeadNum = info.HeadBlockNum ∧ hs.HeadID = info.HeadBlockID ∧
      hs.Time = { Time := info.HeadBlockTime } ∧
      ∀ (p2pAddr : String) (eosAPI : API) (chainID : SHA256Bytes) (networkVersion : Int)
        (p2pAddress : String),
        (NewClient p2pAddr eosAPI chainID networkVersion p2pAddress).NodeID =
          (NewClient p2pAddr eosAPI chainID networkVersion p2pAddress).ChainID := by
  refine ⟨builtHandshake w₁.client key sig info,
    SendHandshake_connected env w₁ info c₁ key sig hc₁ hkey hsig, ?_,
    rfl, rfl, rfl, rfl, rfl, DecodeHex_zeroToken, rfl, rfl, rfl, rfl, rfl, rfl, rfl, rfl,
    fun _ _ _ _ _ => rfl⟩
  have h2 := SendHandshake_connected env w₂ info c₂ key sig hc₂ hkey hsig
  have hb : builtHandshake w₁.client key sig info = builtHandshake w₂.client key sig info := by
    simp only [builtHandshake, hversion, hchain, hnode, haddr]
  rw [hb]
  exact h2

theorem SendHandshake_message_is_determined_witness :
    ∃ hs,
      SendHandshake sampleEnv (connectedWorld (goodConn "a")) sampleInfo =
        .ok ({ connectedWorld (goodConn "a") with wire := (connectedWorld (goodConn "a")).wire ++
                [{ remote := (goodConn "a").remote
                   envelope := { Typ := .HandshakeMessageType, P2PMessage := .handshake hs }
                   err := (goodConn "a").writeErr (connectedWorld (goodConn "a")).wire.length }] },
          (goodConn "a").writeErr (connectedWorld (goodConn "a")).wire.length) ∧
      SendHandshake sampleEnv (connectedWorld (brokenConn "b")) sampleInfo =
        .ok ({ connectedWorld (brokenConn "b") with
                wire := (connectedWorld (brokenConn "b")).wire ++
                [{ remote := (brokenConn "b").remote
                   envelope := { Typ := .HandshakeMessageType, P2PMessage := .handshake hs }
                   err := (brokenConn "b").writeErr
                     (connectedWorld (brokenConn "b")).wire.length }] },
          (brokenConn "b").writeErr (connectedWorld (brokenConn "b")).wire.length) ∧
      hs.NetworkVersion = (connectedWorld (goodConn "a")).client.NetworkVersion ∧
      hs.ChainID = (connectedWorld (goodConn "a")).client.ChainID ∧
      hs.NodeID = (connectedWorld (goodConn "a")).client.NodeID ∧
      hs.Key = [0] ∧ hs.Signature = [1] ∧
      hs.Token = List.replicate 32 0 ∧
      hs.OS = "linux" ∧ hs.Agent = "Charles Billette Agent" ∧ hs.Generation = 1 ∧
      hs.LastIrreversibleBlockNum = sampleInfo.LastIrreversibleBlockNum ∧
      hs.LastIrreversibleBlockID = sampleInfo.LastIrreversibleBlockID ∧
      hs.HeadNum = sampleInfo.HeadBlockNum ∧
      hs.HeadID = sampleInfo.HeadBlockID ∧
      hs.Time = { Time := sampleInfo.HeadBlockTime } ∧
      ∀ (p2pAddr : String) (eosAPI : API) (chainID : SHA256Bytes) (networkVersion : Int)
        (p2pAddress : String),
        (NewClient p2pAddr eosAPI chainID networkVersion p2pAddress).NodeID =
          (NewClient p2pAddr eosAPI chainID networkVersion p2pAddress).ChainID :=
  SendHandshake_message_is_determined sampleEnv (connectedWorld (goodConn "a"))
    (connectedWorld (brokenConn "b")) sampleInfo (goodConn "a") (brokenConn "b") [0] [1]
    rfl rfl rfl rfl rfl rfl rfl rfl

theorem failsWith_eq {α : Type} (r : Except Error α) (e : Error) (h : failsWith r e = true) :
    r = .error e := by
  cases r with
  | error x =>
    simp only [failsWith, beq_iff_eq] at h
    rw [h]
  | ok a => simp [failsWith] at h

/-- C3, as the code has it: a failing chain query makes `Connect` return that query's
error with nothing handed to the encoder. When the failing query is one of the two that
`Connect` makes first, no dial was attempted and the client has no new connection; when
it is one of the two that `setupFlow` makes, the dial has already been made and the
client keeps the open connection. -/
theorem Connect_query_failure (env : Env) (w : World) (e : Error) (pt : QueryPoint)
    (hfail : failsAt env w e pt = true) :
    ∃ w1, Connect env w = .ok (w1, some e) ∧ w1.wire = w.wire ∧
      ((pt = .connectHead ∨ pt = .connectBlock) →
        w1.dials = w.dials ∧ w1.client.Conn = w.client.Conn) ∧
      ((pt = .setupHead ∨ pt = .setupBlock) →
        w1.dials = w.dials ++ [w.client.p2pAddress] ∧ w1.client.Conn.isSome = true) := by
  cases pt with
  | connectHead =>
    have h1 := failsWith_eq _ _ hfail
    simp only [Connect, getHandshakeInfo_head_error w e h1]
    refine ⟨_, rfl, rfl, fun _ => ⟨rfl, rfl⟩, fun h => ?_⟩
    rcases h with h | h <;> cases h
  | connectBlock =>
    unfold failsAt at hfail
    cases h1 : w.client.API.GetInfo w.queries.length with
    | error x => simp [h1] at hfail
    | ok peerInfo =>
      simp only [h1] at hfail
      have h2 := failsWith_eq _ _ hfail
      simp only [Connect, getHandshakeInfo_block_error w peerInfo e h1 h2]
      refine ⟨_, rfl, rfl, fun _ => ⟨rfl, rfl⟩, fun h => ?_⟩
      rcases h with h | h <;> cases h
  | setupHead =>
    unfold failsAt at hfail
    cases h1 : w.client.API.GetInfo w.queries.length with
    | error x => simp [h1] at hfail
    | ok peerInfo =>
      cases h2 : w.client.API.GetBlockByNum (w.queries.length + 1)
          (uint64 peerInfo.LastIrreversibleBlockNum) with
      | error x => simp [h1, h2] at hfail
      | ok blockInfo =>
        cases hd : env.Dial w.dials.length w.client.p2pAddress with
        | error x => simp [h1, h2, hd] at hfail
        | ok conn =>
          simp only [h1, h2, hd] at hfail
          have h3 := failsWith_eq _ _ hfail
          simp only [Connect, getHandshakeInfo_ok w peerInfo blockInfo h1 h2, hd, setupFlow]
          rw [getHandshakeInfo_head_error _ e (by simpa [List.length_append] using h3)]
          refine ⟨_, rfl, rfl, fun h => ?_, fun _ => ⟨rfl, rfl⟩⟩
          rcases h with h | h <;> cases h
  | setupBlock =>
    unfold failsAt at hfail
    cases h1 : w.client.API.GetInfo w.queries.length with
    | error x => simp [h1] at hfail
    | ok peerInfo =>
      cases h2 : w.client.API.GetBlockByNum (w.queries.length + 1)
          (uint64 peerInfo.LastIrreversibleBlockNum) with
      | error x => simp [h1, h2] at hfail
      | ok blockInfo =>
        cases hd : env.Dial w.dials.length w.client.p2pAddress with
        | error x => simp [h1, h2, hd] at hfail
        | ok conn =>
          cases h3 : w.client.API.GetInfo (w.queries.length + 2) with
          | error x => simp [h1, h2, hd, h3] at hfail
          | ok peerInfo2 =>
            simp only [h1, h2, hd, h3] at hfail
            have h4 := failsWith_eq _ _ hfail
            simp only [Connect, getHandshakeInfo_ok w peerInfo blockInfo h1 h2, hd, setupFlow]
            rw [getHandshakeInfo_block_error _ peerInfo2 e
              (by simpa [List.length_append] using h3)
              (by simpa [List.length_append] using h4)]
            refine ⟨_, rfl, rfl, fun h => ?_, fun _ => ⟨rfl, rfl⟩⟩
            rcases h with h | h <;> cases h

theorem Connect_query_failure_witness :
    ∃ w1, Connect sampleEnv flakyWorld = .ok (w1, some "head query failed") ∧
      w1.wire = flakyWorld.wire ∧
      ((QueryPoint.setupHead = .connectHead ∨ QueryPoint.setupHead = .connectBlock) →
        w1.dials = flakyWorld.dials ∧ w1.client.Conn = flakyWorld.client.Conn) ∧
      ((QueryPoint.setupHead = .setupHead ∨ QueryPoint.setupHead = .setupBlock) →
        w1.dials = flakyWorld.dials ++ [flakyWorld.client.p2pAddress] ∧
          w1.client.Conn.isSome = true) :=
  Connect_query_failure sampleEnv flakyWorld "head query failed" .setupHead (by decide)

/-- C3 as stated fails: with a provider that answers the two queries `Connect` makes
first and fails the head query of `setupFlow`, `Connect` returns that error after the
peer was dialed. -/
theorem setupFlow_query_fails_after_dial :
    failsAt sampleEnv flakyWorld "head query failed" .setupHead = true ∧
      ¬ ∃ w1, Connect sampleEnv flakyWorld = .ok (w1, some "head query failed") ∧
          w1.dials = flakyWorld.dials ∧ w1.wire = flakyWorld.wire := by
  refine ⟨by decide, ?_⟩
  rintro ⟨w1, hc, hd, -⟩
  have h : Connect sampleEnv flakyWorld = .ok
      ({ client := { flakyWorld.client with Conn := some (goodConn "peer.example:9876") }
         queries := [Query.getInfo, Query.getBlockByNum 90, Query.getInfo]
         dials := ["peer.example:9876"]
         wire := []
         cells := []
         readLoops := []
         invoked := [] }, some "head query failed") := rfl
  rw [h] at hc
  injection hc with hc
  injection hc with hw _
  rw [← hw] at hd
  exact absurd hd (by decide)

theorem getHandshakeInfo_frame (w : World) :
    (getHandshakeInfo w).1 = { w with queries := (getHandshakeInfo w).1.queries } := by
  unfold getHandshakeInfo apiGetInfo
  cases w.client.API.GetInfo w.queries.length with
  | error e => rfl
  | ok peerInfo =>
    simp only [apiGetBlockByNum]
    cases w.client.API.GetBlockByNum (w.queries ++ [Query.getInfo]).length
        (uint64 peerInfo.LastIrreversibleBlockNum) with
    | error e => rfl
    | ok blockInfo => rfl

theorem SendHandshake_wire (env : Env) (w : World) (info : handshakeInfo) (conn : NetConn)
    (hconn : w.client.Conn = some conn) :
    ∃ w1 r, SendHandshake env w info = .ok (w1, r) ∧
      (w1.wire = w.wire ∨ ∃ hs err, w1.wire = w.wire ++
        [{ remote := conn.remote
           envelope := { Typ := .HandshakeMessageType, P2PMessage := .handshake hs }
           err := err }] ∧ hs.position = info) := by
  cases hkey : env.NewPublicKey nullPublicKey with
  | error e => exact ⟨w, some e, by simp only [SendHandshake, hkey], Or.inl rfl⟩
  | ok key =>
    cases hsig : env.NewSignature nullSignature with
    | error e => exact ⟨w, some e, by simp only [SendHandshake, hkey, hsig], Or.inl rfl⟩
    | ok sig =>
      exact ⟨_, _, SendHandshake_connected env w info conn key sig hconn hkey hsig,
        Or.inr ⟨builtHandshake w.client key sig info, _, rfl, rfl⟩⟩

/-- C9, as the code has it: every handshake the client sends takes its five chain
position fields from one observation. The handshake `Connect` sends carries the result
of the `getHandshakeInfo` call that `Connect` makes first, before dialing (not of the
later call made by `setupFlow`); the handshake the reactive handler sends carries the
position of the peer handshake it has just received. -/
theorem handshake_position_from_one_observation (env : Env) (w₀ w : World) (cell : Nat)
    (pp : PostProcessable) (conn : NetConn) (hconn : w.client.Conn = some conn) :
    (∃ w1 r, Connect env w₀ = .ok (w1, r) ∧
      (w1.wire = w₀.wire ∨ ∃ hs remote err, w1.wire = w₀.wire ++
        [{ remote := remote
           envelope := { Typ := .HandshakeMessageType, P2PMessage := .handshake hs }
           err := err }] ∧ hs.position = (getHandshakeInfo w₀).2.1)) ∧
    (∃ w1, Handle env (.func (.initHandler cell)) pp w = .ok w1 ∧
      (w1.wire = w.wire ∨ ∃ msg hs err,
        pp.P2PMessageEnvelope.P2PMessage = .handshake msg ∧
        w1.wire = w.wire ++
          [{ remote := conn.remote
             envelope := { Typ := .HandshakeMessageType, P2PMessage := .handshake hs }
             err := err }] ∧ hs.position = msg.position)) := by
  constructor
  · have hf := getHandshakeInfo_frame w₀
    rcases hq : getHandshakeInfo w₀ with ⟨wa, info, _ | e⟩
    · rw [hq] at hf
      simp only at hf
      simp only [Connect, hq]
      cases hd : env.Dial wa.dials.length wa.client.p2pAddress with
      | error e => exact ⟨_, _, rfl, Or.inl (by rw [hf])⟩
      | ok c =>
        simp only [setupFlow]
        have hf2 := getHandshakeInfo_frame
          { wa with dials := wa.dials ++ [wa.client.p2pAddress]
                    client := { wa.client with Conn := some c } }
        rcases hq2 : getHandshakeInfo
          { wa with dials := wa.dials ++ [wa.client.p2pAddress]
                    client := { wa.client with Conn := some c } } with ⟨wb, info2, _ | e⟩
        · rw [hq2] at hf2
          simp only at hf2
          simp only [RegisterHandler]
          have hwire : wb.wire = w₀.wire := by rw [hf2, hf]
          have hconnb : wb.client.Conn = some c := by rw [hf2]
          obtain ⟨w1, r, hs1, hs2⟩ := SendHandshake_wire env
            { wb with
              cells := wb.cells ++ [info2]
              client := { wb.client with
                handlers := wb.client.handlers ++ [.func (.initHandler wb.cells.length)] }
              readLoops := wb.readLoops ++ [{ From := wb.client.p2pAddress }] }
            info c hconnb
          refine ⟨w1, r, hs1, ?_⟩
          rcases hs2 with h | ⟨hs, err, h, hp⟩
          · exact Or.inl (by rw [h, ← hwire])
          · exact Or.inr ⟨hs, _, err, by rw [h, ← hwire], hp⟩
        · rw [hq2] at hf2
          simp only at hf2
          exact ⟨_, _, rfl, Or.inl (by rw [hf2, hf])⟩
    · rw [hq] at hf
      simp only at hf
      simp only [Connect, hq]
      exact ⟨_, _, rfl, Or.inl (by rw [hf])⟩
  · cases hmsg : pp.P2PMessageEnvelope.P2PMessage with
    | handshake msg =>
      obtain ⟨w1, r, hs1, hs2⟩ := SendHandshake_wire env
        ({ w with cells := w.cells.set cell msg.position } : World) msg.position conn hconn
      simp only [HandshakeMessage.position] at hs1
      refine ⟨w1, by simp only [Handle, initHandler, hmsg, hs1], ?_⟩
      rcases hs2 with h | ⟨hs, err, h, hp⟩
      · exact Or.inl h
      · exact Or.inr ⟨msg, hs, err, rfl, h, hp⟩
    | syncRequest m => exact ⟨w, by simp only [Handle, initHandler, hmsg], Or.inl rfl⟩
    | other t p => exact ⟨w, by simp only [Handle, initHandler, hmsg], Or.inl rfl⟩

theorem handshake_position_from_one_observation_witness :
    (∃ w1 r, Connect sampleEnv advancingWorld = .ok (w1, r) ∧
      (w1.wire = advancingWorld.wire ∨ ∃ hs remote err, w1.wire = advancingWorld.wire ++
        [{ remote := remote
           envelope := { Typ := .HandshakeMessageType, P2PMessage := .handshake hs }
           err := err }] ∧ hs.position = (getHandshakeInfo advancingWorld).2.1)) ∧
    (∃ w1, Handle sampleEnv (.func (.initHandler 0)) ⟨sampleRoute, handshakeEnvelope⟩
        (connectedWorld (goodConn "peer.example:9876")) = .ok w1 ∧
      (w1.wire = (connectedWorld (goodConn "peer.example:9876")).wire ∨ ∃ msg hs err,
        (PostProcessable.mk sampleRoute handshakeEnvelope).P2PMessageEnvelope.P2PMessage =
          .handshake msg ∧
        w1.wire = (connectedWorld (goodConn "peer.example:9876")).wire ++
          [{ remote := (goodConn "peer.example:9876").remote
             envelope := { Typ := .HandshakeMessageType, P2PMessage := .handshake hs }
             err := err }] ∧ hs.position = msg.position)) :=
  handshake_position_from_one_observation sampleEnv advancingWorld
    (connectedWorld (goodConn "peer.example:9876")) 0 ⟨sampleRoute, handshakeEnvelope⟩
    (goodConn "peer.example:9876") rfl

/-- C9 as stated fails: on a chain whose head advances between queries, the handshake
`Connect` sends announces head 100, the answer to its first head query, while the latest
head query made before the send (the third query of the call, made by `setupFlow` and
kept in its captured variable) reported head 102. -/
theorem Connect_handshake_is_not_latest_query :
    ∃ w1 hs peerInfo2, Connect sampleEnv advancingWorld = .ok (w1, none) ∧
      w1.wire =
        [{ remote := "peer.example:9876"
           envelope := { Typ := .HandshakeMessageType, P2PMessage := .handshake hs }
           err := none }] ∧
      w1.queries =
        [Query.getInfo, Query.getBlockByNum 90, Query.getInfo, Query.getBlockByNum 90] ∧
      advancingWorld.client.API.GetInfo 2 = .ok peerInfo2 ∧
      w1.cells.map (fun info => info.HeadBlockNum) = [peerInfo2.HeadBlockNum] ∧
      hs.HeadNum = 100 ∧ peerInfo2.HeadBlockNum = 102 ∧
      hs.HeadNum ≠ peerInfo2.HeadBlockNum :=
  ⟨_, builtHandshake advancingWorld.client [0] [1]
      (observed { HeadBlockNum := 100, HeadBlockID := "0a0b", HeadBlockTime := { Time := 5000 },
                  LastIrreversibleBlockNum := 90 } { BlockNum := 90, ID := "0c0d" }),
    _, rfl, rfl, rfl, rfl, rfl, rfl, rfl, by decide⟩

/-! ## The handler registry -/

theorem goEq_ok (a b : Handler) (r : Bool) (h : a.goEq b = .ok r) : r = decide (a = b) := by
  cases a <;> cases b <;> simp [Handler.goEq] at h ⊢ <;>
    first | exact h | exact h.symm

theorem unregisterLoop_ok (h : Handler) (l acc r : List Handler)
    (hr : unregisterLoop h l acc = .ok r) :
    r = acc ++ l.filter (fun x => !decide (x = h)) := by
  induction l generalizing acc with
  | nil =>
    simp only [unregisterLoop, Except.ok.injEq] at hr
    simp [hr]
  | cons x rest ih =>
    unfold unregisterLoop at hr
    cases hx : x.goEq h with
    | error p => simp [hx] at hr
    | ok b =>
      have hb := goEq_ok x h b hx
      cases b with
      | true =>
        simp only [hx] at hr
        have heq : x = h := by simpa using hb.symm
        rw [ih acc hr]
        simp [heq]
      | false =>
        simp only [hx] at hr
        have hne : ¬ x = h := by simpa using hb.symm
        rw [ih _ hr]
        simp [hne]

theorem UnregisterHandler_ok (w w1 : World) (h : Handler)
    (hr : UnregisterHandler w h = .ok w1) :
    w1 = { w with client := { w.client with
      handlers := w.client.handlers.filter (fun x => !decide (x = h)) } } := by
  unfold UnregisterHandler at hr
  cases hl : unregisterLoop h w.client.handlers [] with
  | error p => simp [hl] at hr
  | ok r =>
    simp only [hl, Except.ok.injEq] at hr
    rw [← hr, unregisterLoop_ok h _ _ r hl]
    simp

theorem unregisterLoop_func_panics (f g : HandlerFunc) (l acc : List Handler)
    (hmem : Handler.func g ∈ l) :
    unregisterLoop (.func f) l acc = .error .uncomparable := by
  induction l generalizing acc with
  | nil => simp at hmem
  | cons x rest ih =>
    unfold unregisterLoop
    cases x with
    | nil =>
      simp only [Handler.goEq]
      exact ih _ (by simpa using hmem)
    | func k => simp only [Handler.goEq]
    | ptr t a =>
      simp only [Handler.goEq]
      exact ih _ (by simpa using hmem)

/-- Unregistering any `HandlerFunc` from a registry that holds a `HandlerFunc` panics. -/
theorem UnregisterHandler_func_panics (w : World) (f g : HandlerFunc)
    (hmem : Handler.func g ∈ w.client.handlers) :
    UnregisterHandler w (.func f) = .error .uncomparable := by
  simp only [UnregisterHandler, unregisterLoop_func_panics f g _ [] hmem]

theorem applyCalls_ok (calls : List RegistryCall) (w w1 : World)
    (hr : applyCalls calls w = .ok w1) :
    w1.client.handlers =
      w.client.handlers.filter (fun x => !calls.contains (.unregister x)) ++ survivors calls := by
  induction calls generalizing w with
  | nil =>
    simp only [applyCalls, Except.ok.injEq] at hr
    simp [hr, survivors]
  | cons call rest ih =>
    unfold applyCalls at hr
    cases call with
    | register h =>
      simp only [applyCall] at hr
      rw [ih _ hr]
      simp only [RegisterHandler, List.filter_append, survivors, List.append_assoc]
      congr 1
      by_cases hc : RegistryCall.unregister h ∈ rest
      · simp [hc, List.filter]
      · simp [hc, List.filter]
    | unregister h =>
      cases hu : UnregisterHandler w h with
      | error p => simp [applyCall, hu] at hr
      | ok w2 =>
        simp only [applyCall, hu] at hr
        rw [ih _ hr, UnregisterHandler_ok w w2 h hu]
        simp only [survivors, List.filter_filter]
        congr 1
        apply List.filter_congr
        intro x _
        by_cases hx : x = h
        · simp [hx]
        · simp [hx]

theorem SendHandshake_invoked (env : Env) (w w1 : World) (info : handshakeInfo)
    (r : Option Error) (hs : SendHandshake env w info = .ok (w1, r)) :
    w1.invoked = w.invoked := by
  unfold SendHandshake at hs
  cases hkey : env.NewPublicKey nullPublicKey with
  | error e =>
    simp only [hkey, Except.ok.injEq, Prod.mk.injEq] at hs
    rw [← hs.1]
  | ok key =>
    cases hsig : env.NewSignature nullSignature with
    | error e =>
      simp only [hkey, hsig, Except.ok.injEq, Prod.mk.injEq] at hs
      rw [← hs.1]
    | ok sig =>
      simp only [hkey, hsig, sendMessage] at hs
      cases hconn : w.client.Conn with
      | none => simp [hconn] at hs
      | some conn =>
        simp only [hconn, Except.ok.injEq, Prod.mk.injEq] at hs
        rw [← hs.1]

theorem Handle_invoked (env : Env) (h : Handler) (pp : PostProcessable) (w w1 : World)
    (hr : Handle env h pp w = .ok w1) : w1.invoked = w.invoked := by
  cases h with
  | nil => simp [Handle] at hr
  | ptr t a =>
    simp only [Handle, Except.ok.injEq] at hr
    rw [hr]
  | func f =>
    cases f with
    | LoggerHandler =>
      simp only [Handle, Except.ok.injEq] at hr
      rw [hr]
    | StringLoggerHandler =>
      simp only [Handle, Except.ok.injEq] at hr
      rw [hr]
    | userFunc n =>
      simp only [Handle, Except.ok.injEq] at hr
      rw [hr]
    | initHandler cell =>
      simp only [Handle, initHandler] at hr
      split at hr
      · rename_i msg hmsg
        split at hr
        · simp at hr
        · rename_i w2 r hsend
          simp only [Except.ok.injEq] at hr
          rw [← hr, SendHandshake_invoked env _ w2 _ r hsend]
      · simp only [Except.ok.injEq] at hr
        rw [hr]

theorem dispatchLoop_invoked (env : Env) (pp : PostProcessable) (l : List Handler)
    (w w1 : World) (hr : dispatchLoop env pp l w = .ok w1) :
    w1.invoked = w.invoked ++ l.map (fun h => (h, pp)) := by
  induction l generalizing w with
  | nil =>
    simp only [dispatchLoop, Except.ok.injEq] at hr
    simp [hr]
  | cons h rest ih =>
    unfold dispatchLoop at hr
    split at hr
    · simp at hr
    · rename_i w2 hh
      rw [ih w2 hr, Handle_invoked env h pp _ w2 hh]
      simp

/-- Whenever a sequence of registry calls on an empty registry completes and the
dispatch that follows completes, the handlers invoked by the dispatch are the
registrations no later call unregistered, once each and in registration order, each with
the route and the envelope of the dispatch. -/
theorem dispatch_invokes_survivors (env : Env) (calls : List RegistryCall) (w w1 w2 : World)
    (route : Route) (envelope : P2PMessageEnvelope)
    (hempty : w.client.handlers = [])
    (hcalls : applyCalls calls w = .ok w1)
    (hdispatch : handleEnvelope env route envelope w1 = .ok w2) :
    w2.invoked = w1.invoked ++
      (survivors calls).map
        (fun h => (h, { Route := route, P2PMessageEnvelope := envelope })) := by
  have hh := applyCalls_ok calls w w1 hcalls
  rw [hempty] at hh
  simp only [List.filter_nil, List.nil_append] at hh
  have hd := dispatchLoop_invoked env _ _ w1 w2 hdispatch
  rw [hd, hh]

/-- Unregistering a handler of a comparable type (or nil) never panics and removes
exactly the entries equal to it. -/
theorem UnregisterHandler_comparable (w : World) (h : Handler)
    (hc : ∀ f, h ≠ .func f) :
    UnregisterHandler w h = .ok { w with client := { w.client with
      handlers := w.client.handlers.filter (fun x => !decide (x = h)) } } := by
  have hloop : ∀ (l acc : List Handler),
      unregisterLoop h l acc = .ok (acc ++ l.filter (fun x => !decide (x = h))) := by
    intro l
    induction l with
    | nil => intro acc; simp [unregisterLoop]
    | cons x rest ih =>
      intro acc
      unfold unregisterLoop
      cases hx : x.goEq h with
      | error p =>
        cases x <;> cases h <;> simp [Handler.goEq] at hx
        exact absurd rfl (hc _)
      | ok b =>
        have hb := goEq_ok x h b hx
        cases b with
        | true =>
          have heq : x = h := by simpa using hb.symm
          simp [ih, heq]
        | false =>
          have hne : ¬ x = h := by simpa using hb.symm
          simp [ih, hne]
  simp only [UnregisterHandler, hloop, List.nil_append]

/-! ## Where the code departs from its description -/

/-- C4 on the code: register a pointer handler and `StringLoggerHandler`, then unregister
`StringLoggerHandler`. The registrations left are the pointer handler alone, which the
next dispatch should invoke once; the code panics in `UnregisterHandler` when it compares
the two `HandlerFunc` values, so the dispatch that follows the calls never runs. -/
theorem dispatch_after_unregistering_func_handler_panics :
    survivors
        [.register (.ptr 1 4096), .register (.func .StringLoggerHandler),
          .unregister (.func .StringLoggerHandler)] = [.ptr 1 4096] ∧
      applyCalls
        [.register (.ptr 1 4096), .register (.func .StringLoggerHandler),
          .unregister (.func .StringLoggerHandler)]
        (connectedWorld (goodConn "peer.example:9876")) = .error .uncomparable ∧
      (applyCalls
        [.register (.ptr 1 4096), .register (.func .StringLoggerHandler),
          .unregister (.func .StringLoggerHandler)]
        (connectedWorld (goodConn "peer.example:9876"))).bind
          (handleEnvelope sampleEnv sampleRoute syncEnvelope) = .error .uncomparable :=
  ⟨by decide, rfl, rfl⟩

/-- C5 on the code: after `Connect` the registry holds the `HandlerFunc` installed by
`setupFlow`; `UnregisterHandler(LoggerHandler)`, for a handler that is not registered,
panics in the comparison of the two function values instead of leaving the registry as
it is. -/
theorem UnregisterHandler_LoggerHandler_after_Connect_panics :
    ∃ w1, Connect sampleEnv steadyWorld = .ok (w1, none) ∧
      w1.client.handlers = [.func (.initHandler 0)] ∧
      UnregisterHandler w1 (.func .LoggerHandler) = .error .uncomparable :=
  ⟨_, rfl, rfl, rfl⟩

/-- C8 on the code: on a connection whose write fails with "broken pipe", `sendMessage`
returns that error for the sync request and `SendSyncRequest` returns nil. -/
theorem SendSyncRequest_returns_nil_on_write_error :
    ∃ w1, sendMessage (connectedWorld (brokenConn "peer.example:9876"))
          (.syncRequest { StartBlock := 1, EndBlock := 9 }) = .ok (w1, some "broken pipe") ∧
      SendSyncRequest (connectedWorld (brokenConn "peer.example:9876")) 1 9 = .ok (w1, none) :=
  ⟨_, rfl, rfl⟩

/-- `SendSyncRequest` never returns an error, whatever `sendMessage` returned. -/
theorem SendSyncRequest_never_returns_error (w w1 : World) (startBlockNum endBlockNumber : Nat)
    (r : Option Error) (h : SendSyncRequest w startBlockNum endBlockNumber = .ok (w1, r)) :
    r = none := by
  simp only [SendSyncRequest] at h
  split at h
  · simp at h
  · simp only [Except.ok.injEq, Prod.mk.injEq] at h
    exact h.2.symm

/-- C10 on the code: a client made by `NewClient "peer.example:9876" .. "me.example:5555"`
dials "peer.example:9876" and announces that same address, the peer's, in the
`P2PAddress` of its handshake; the address given as its own is not used. -/
theorem handshake_P2PAddress_is_the_dialed_address :
    ∃ w1 hs,
      Connect sampleEnv (World.fresh
        (NewClient "peer.example:9876" steadyAPI sampleChainID 1 "me.example:5555")) =
          .ok (w1, none) ∧
      w1.dials = ["peer.example:9876"] ∧
      w1.wire =
        [{ remote := "peer.example:9876"
           envelope := { Typ := .HandshakeMessageType, P2PMessage := .handshake hs }
           err := none }] ∧
      hs.P2PAddress = "peer.example:9876" ∧ hs.P2PAddress ≠ "me.example:5555" :=
  ⟨_, builtHandshake steadyWorld.client [0] [1] sampleInfo, rfl, rfl, rfl, rfl, by decide⟩

/-- The address argument `NewClient` stores is its first one, for every fifth one. -/
theorem NewClient_p2pAddress (p2pAddr : String) (eosAPI : API) (chainID : SHA256Bytes)
    (networkVersion : Int) (p2pAddress : String) :
    (NewClient p2pAddr eosAPI chainID networkVersion p2pAddress).p2pAddress = p2pAddr :=
  rfl

end P2P
